import Mathlib

/-!
Shallow embedding of the MCP tool registry / dispatch core of the
`ai-hub-cloud` repository (files `mcp-server/main.py`,
`github-mcp-server/main.py`, `digitalocean-mcp-server/main.py`,
`scripts/quick_fix_mcp.py`, `mcp-server/json_fix_patch.py`).

JSON values are modelled by `JsonVal`; Python exceptions raised inside a
handler are modelled by `Except String` carrying `str(e)`; the FastAPI
boundary is modelled by `HttpResponse`: a returned envelope is `.ok`,
an exception escaping the endpoint function (which the framework turns
into a raw 500) is `.serverError`.
-/

/-- JSON-compatible values (numbers restricted to integers: no claim in
this development touches non-integral numerics). -/
inductive JsonVal where
  | null : JsonVal
  | bool : Bool → JsonVal
  | num : Int → JsonVal
  | str : String → JsonVal
  | arr : List JsonVal → JsonVal
  | obj : List (String × JsonVal) → JsonVal


/-- `d.get(k)` on a parsed JSON object (Python dicts have unique keys;
lookup of the first matching key agrees with that). -/
def dict_get (d : List (String × JsonVal)) (k : String) : Option JsonVal :=
  (d.find? (fun p => p.1 == k)).map (fun p => p.2)

/-- Python `str()` as used in the f-strings of the source
(`f"Tool '{tool_name}' not found"`).  Containers are never rendered on a
reachable path: a list/dict tool name makes the preceding membership test
`tool_name not in tools_registry` raise `unhashable type` first. -/
def py_fstr : JsonVal → String
  | JsonVal.null => "None"
  | JsonVal.bool true => "True"
  | JsonVal.bool false => "False"
  | JsonVal.num n => toString n
  | JsonVal.str s => s
  | JsonVal.arr _ => "<unreachable>"
  | JsonVal.obj _ => "<unreachable>"

/-- Python `type(x).__name__` for the values of the model, as rendered in
the `TypeError` raised by `f(**parameters)` on a non-mapping. -/
def py_type : JsonVal → String
  | JsonVal.null => "NoneType"
  | JsonVal.bool _ => "bool"
  | JsonVal.num _ => "int"
  | JsonVal.str _ => "str"
  | JsonVal.arr _ => "list"
  | JsonVal.obj _ => "dict"

/-- Python truthiness of a JSON-compatible value (`if not tool_name`). -/
def py_truthy : JsonVal → Bool
  | JsonVal.null => false
  | JsonVal.bool b => b
  | JsonVal.num n => !(n == 0)
  | JsonVal.str s => !s.isEmpty
  | JsonVal.arr xs => !xs.isEmpty
  | JsonVal.obj kvs => !kvs.isEmpty

/-- Python `a or b`: `a` when truthy, else `b`. -/
def py_or (a b : JsonVal) : JsonVal :=
  if py_truthy a then a else b

/-- A registry entry as built by the `mcp_tool` decorator
(`mcp-server/main.py` 69-81, identically in `revolutionary_complete.py`
81-93 and the github/digitalocean servers): name = `func.__name__`,
description = `func.__doc__ or ""`, `params` = the keys of
`func.__annotations__` (every parameter of every registered tool is
annotated, so these coincide with the keyword-bindable parameter names),
`required` = the parameters without a default value, `hasKwargs` =
whether the signature declares a catch-all `**kwargs` (no source tool
does), and `run` = the handler body on an already-bound argument dict,
returning a value or failing with `str(e)` of the raised exception. -/
structure Tool where
  name : String
  description : String
  params : List String
  required : List String
  hasKwargs : Bool
  run : List (String × JsonVal) → Except String JsonVal

/-- `tools_registry[func.__name__] = {...}`: Python dict assignment —
an existing key keeps its insertion position and its value is replaced,
a fresh key is appended.  The registry is modelled as the list of
entries in insertion order. -/
def register_tool (reg : List Tool) (t : Tool) : List Tool :=
  if reg.any (fun u => u.name == t.name) then
    reg.map (fun u => if u.name == t.name then t else u)
  else
    reg ++ [t]

/-- A startup sequence of decorator applications, in program order. -/
def register_all (ts : List Tool) : List Tool :=
  ts.foldl register_tool []

/-- `tools_registry[tool_name]` via key lookup (first — unique — match). -/
def find_tool (reg : List Tool) (s : String) : Option Tool :=
  reg.find? (fun t => t.name == s)

/-- Python call semantics of `tool["function"](**parameters)`:
an argument key outside the declared parameters (absent a `**kwargs`)
raises `TypeError: ...got an unexpected keyword argument...` before the
body runs; then a missing required parameter raises
`TypeError: ...missing 1 required positional argument...`; only then is
the handler body entered. -/
def invoke_tool (t : Tool) (args : List (String × JsonVal)) : Except String JsonVal :=
  match args.find? (fun a => !(t.hasKwargs || t.params.contains a.1)) with
  | some a =>
      Except.error (t.name ++ "() got an unexpected keyword argument \x27" ++ a.1 ++ "\x27")
  | none =>
      match t.required.find? (fun p => !(args.any (fun a => a.1 == p))) with
      | some p =>
          Except.error (t.name ++ "() missing 1 required positional argument: \x27" ++ p ++ "\x27")
      | none => t.run args

/-- The uniform response envelope `{status, tool, result|error}`. -/
inductive Envelope where
  | success : JsonVal → JsonVal → Envelope
  | failure : JsonVal → String → Envelope


/-- The `status` field of an envelope. -/
def Envelope.status : Envelope → String
  | Envelope.success _ _ => "success"
  | Envelope.failure _ _ => "error"

/-- The `tool` field of an envelope. -/
def Envelope.toolField : Envelope → JsonVal
  | Envelope.success t _ => t
  | Envelope.failure t _ => t

/-- What the HTTP framework sends back: a JSON body returned by the
endpoint function (`.ok`), or — when an exception escapes the endpoint
function — the framework's raw 500 (`.serverError`). -/
inductive HttpResponse where
  | ok : Envelope → HttpResponse
  | serverError : String → HttpResponse


/-- The request body of a POST to `/mcp/call`: either a JSON object, or a
body on which `await request.json()` raises (carrying `str(e)` of the
decode error). -/
inductive RequestBody where
  | malformed : String → RequestBody
  | parsed : List (String × JsonVal) → RequestBody

/-- `f"Tool '{tool_name}' not found"` prefixed by the `HTTPException`
rendering `str(e) = f"{status_code}: {detail}"`. -/
def not_found_msg (v : JsonVal) : String :=
  "404: Tool \x27" ++ py_fstr v ++ "\x27 not found"

/-- `TypeError` message of `f(**parameters)` on a non-mapping. -/
def mapping_msg (v : JsonVal) : String :=
  "argument after ** must be a mapping, not " ++ py_type v

/-- The shared try-block body of `mcp_call` (`mcp-server/main.py`
354-368, textually identical in `github-mcp-server/main.py` 423-437 and
`digitalocean-mcp-server/main.py` 641-655), on an already-parsed JSON
object: extract `tool` and `parameters`, test registry membership
(raising `404 Tool ... not found`, or `unhashable type` for an unhashable
name), bind and run the handler; every raised exception is converted by
the enclosing `except` into the error envelope `{status: "error",
tool: tool_name, error: str(e)}`. -/
def dispatch_tool (reg : List Tool) (tool_name raw_params : JsonVal) : Envelope :=
  match tool_name with
  | JsonVal.str s =>
      match find_tool reg s with
      | some t =>
          match raw_params with
          | JsonVal.obj args =>
              match invoke_tool t args with
              | Except.ok v => Envelope.success (JsonVal.str s) v
              | Except.error m => Envelope.failure (JsonVal.str s) m
          | other => Envelope.failure (JsonVal.str s) (mapping_msg other)
      | none => Envelope.failure (JsonVal.str s) (not_found_msg (JsonVal.str s))
  | JsonVal.arr xs => Envelope.failure (JsonVal.arr xs) "unhashable type: \x27list\x27"
  | JsonVal.obj kvs => Envelope.failure (JsonVal.obj kvs) "unhashable type: \x27dict\x27"
  | other => Envelope.failure other (not_found_msg other)

/-- The try-block body on a parsed JSON object: extract
`data.get("tool")` and `data.get("parameters", {})` and dispatch. -/
def dispatch_data (reg : List Tool) (data : List (String × JsonVal)) : Envelope :=
  dispatch_tool reg ((dict_get data "tool").getD JsonVal.null)
    ((dict_get data "parameters").getD (JsonVal.obj []))

/-- The `UnboundLocalError` raised inside the `except` handler of
`mcp-server/main.py` `mcp_call` when `await request.json()` itself
raised: `tool_name` was never assigned, and the error escapes the
endpoint function. -/
def unbound_local_error : String :=
  "UnboundLocalError: local variable \x27tool_name\x27 referenced before assignment"

/-- `mcp_call` of `mcp-server/main.py` (lines 347-374).  On a body that
fails to parse as JSON, the `except` handler itself faults
(`tool_name` unbound) and the framework answers with a raw 500. -/
def mcp_call (reg : List Tool) : RequestBody → HttpResponse
  | RequestBody.malformed _ => HttpResponse.serverError unbound_local_error
  | RequestBody.parsed data => HttpResponse.ok (dispatch_data reg data)

/-- `mcp_call` of `github-mcp-server/main.py` (419-443) and
`digitalocean-mcp-server/main.py` (637-661): same try-block, but the
`except` handler guards with `tool_name if 'tool_name' in locals() else
"unknown"`, so a parse failure yields an error envelope with tool
`"unknown"` and `str(e)` of the decode error. -/
def mcp_call_guarded (reg : List Tool) : RequestBody → Envelope
  | RequestBody.malformed m => Envelope.failure (JsonVal.str "unknown") m
  | RequestBody.parsed data => dispatch_data reg data

/-- `new_mcp_call` of `scripts/quick_fix_mcp.py` (the replacement dispatch
the fix script installs), restricted to JSON request bodies (its
form-encoded branch is outside every claim here): body-parse failures
fall back to `data = {}`; the tool name is
`data.get("tool") or data.get("function") or data.get("name")`; a falsy
name raises `HTTPException(400, "No tool name provided")`, caught by the
except into an error envelope with the falsy `tool_name` value. -/
def new_mcp_call (reg : List Tool) (req : RequestBody) : Envelope :=
  let data : List (String × JsonVal) :=
    match req with
    | RequestBody.malformed _ => []
    | RequestBody.parsed d => d
  let tool_name : JsonVal :=
    py_or (py_or ((dict_get data "tool").getD JsonVal.null)
                 ((dict_get data "function").getD JsonVal.null))
          ((dict_get data "name").getD JsonVal.null)
  if !(py_truthy tool_name) then
    Envelope.failure tool_name "400: No tool name provided"
  else
    dispatch_tool reg tool_name ((dict_get data "parameters").getD (JsonVal.obj []))

/-- One advertised entry of `GET /mcp/tools`
(`mcp-server/main.py` 376-398): name, description, annotation keys. -/
structure ToolInfo where
  name : String
  description : String
  parameters : List String


/-- The `tools` list of `GET /mcp/tools`; its `total` field is the length
of this list. -/
def list_tools (reg : List Tool) : List ToolInfo :=
  reg.map (fun t => ToolInfo.mk t.name t.description t.params)

/-- The part of an upstream HTTP exchange the adapters inspect:
status code, `response.text`, and `response.json()` modelled as the
JSON parse of the body (`none` when the body is not valid JSON — in
particular when it is empty, where `.json()` raises
`Expecting value: line 1 column 1 (char 0)`). -/
structure UpstreamResponse where
  status_code : Nat
  text : String
  json_body : Option JsonVal


/-- `str(e)` of the `json.JSONDecodeError` raised by `.json()` on an
empty body. -/
def empty_body_error : String :=
  "Expecting value: line 1 column 1 (char 0)"

/-- Python `method.upper()`, character-wise (the method strings of the
source are ASCII, where `str.upper` is exactly the per-character ASCII
upcase). -/
def py_upper (s : String) : String :=
  String.mk (s.data.map Char.toUpper)

/-- `call_openwebui_api` of `mcp-server/main.py` (41-63), abstracted over
the upstream response: unsupported method → `HTTPException(400, ...)`;
status ≥ 400 → `HTTPException(status, response.text)`; otherwise
`response.json()` — there is **no** 204/empty-body handling, so an empty
2xx body fails with the JSON decode error. -/
def call_openwebui_api (method : String) (r : UpstreamResponse) : Except String JsonVal :=
  if !(["GET", "POST", "PUT", "DELETE"].contains (py_upper method)) then
    Except.error ("400: Unsupported method: " ++ method)
  else if r.status_code ≥ 400 then
    Except.error (toString r.status_code ++ ": " ++ r.text)
  else
    match r.json_body with
    | some v => Except.ok v
    | none => Except.error empty_body_error

/-- The synthetic success marker `do_api_call` returns for a 204. -/
def do_204_marker : JsonVal :=
  JsonVal.obj [("status", JsonVal.str "success"), ("message", JsonVal.str "Operation completed")]

/-- `do_api_call` of `digitalocean-mcp-server/main.py` (48-77):
like `call_openwebui_api` (plus PATCH), but a 204 returns
`{"status": "success", "message": "Operation completed"}` instead of
attempting to parse the (empty) body. -/
def do_api_call (method : String) (r : UpstreamResponse) : Except String JsonVal :=
  if !(["GET", "POST", "PUT", "DELETE", "PATCH"].contains (py_upper method)) then
    Except.error ("400: Unsupported method: " ++ method)
  else if r.status_code ≥ 400 then
    Except.error (toString r.status_code ++ ": " ++ r.text)
  else if r.status_code == 204 then
    Except.ok do_204_marker
  else
    match r.json_body with
    | some v => Except.ok v
    | none => Except.error empty_body_error

/-! Concrete tools used as test inputs for witnesses and counterexamples.
They instantiate the handler shapes the framework admits (an echoing
handler, a handler raising with a message, a handler raising an
exception whose `str` is empty, two distinct descriptors sharing a
name). -/

/-- An echo handler: returns argument `x` unchanged. -/
def echo_tool : Tool :=
  Tool.mk "echo" "Echo x back" ["x"] ["x"] false
    (fun args => Except.ok ((dict_get args "x").getD JsonVal.null))

/-- A handler that always raises `Exception("boom failed")`. -/
def boom_tool : Tool :=
  Tool.mk "boom" "Always fails" [] [] false
    (fun _ => Except.error "boom failed")

/-- A handler that raises an exception whose message is empty
(`raise ValueError()` gives `str(e) = ""`). -/
def silent_tool : Tool :=
  Tool.mk "silent" "Fails with an empty message" [] [] false
    (fun _ => Except.error "")

/-- A small registry in registration order. -/
def demo_registry : List Tool :=
  register_all [echo_tool, boom_tool, silent_tool]

/-- First of two distinct descriptors sharing the name `dup`. -/
def dup_v1 : Tool :=
  Tool.mk "dup" "first version" [] [] false (fun _ => Except.ok JsonVal.null)

/-- Second of two distinct descriptors sharing the name `dup`. -/
def dup_v2 : Tool :=
  Tool.mk "dup" "second version" [] [] false (fun _ => Except.ok (JsonVal.bool true))

/-! Reduction lemmas for the shared dispatch body. -/

/-- Dispatch on a body naming an unregistered tool. -/
theorem dispatch_data_not_found (reg : List Tool) (data : List (String × JsonVal)) (s : String)
    (htool : dict_get data "tool" = some (JsonVal.str s))
    (hfind : find_tool reg s = none) :
    dispatch_data reg data =
      Envelope.failure (JsonVal.str s) ("404: Tool \x27" ++ s ++ "\x27 not found") := by
  unfold dispatch_data dispatch_tool
  rw [htool]
  simp only [Option.getD_some]
  rw [hfind]
  rfl

/-- Dispatch on a body naming a registered tool, with an object
`parameters` field: the outcome is the handler-binding outcome wrapped
into the success/error envelope. -/
theorem dispatch_data_registered (reg : List Tool) (data : List (String × JsonVal)) (s : String)
    (t : Tool) (args : List (String × JsonVal))
    (htool : dict_get data "tool" = some (JsonVal.str s))
    (hfind : find_tool reg s = some t)
    (hparams : dict_get data "parameters" = some (JsonVal.obj args)) :
    dispatch_data reg data =
      match invoke_tool t args with
      | Except.ok v => Envelope.success (JsonVal.str s) v
      | Except.error m => Envelope.failure (JsonVal.str s) m := by
  unfold dispatch_data dispatch_tool
  rw [htool, hparams]
  simp only [Option.getD_some]
  rw [hfind]

/-- C1: a POST to `/mcp/call` naming a tool that is not a key of
`tools_registry` returns the error envelope `{status: "error",
tool: <name>, error: "404: Tool '<name>' not found"}` — in the base
server (`mcp-server/main.py`) and in the guarded github/digitalocean
variants alike — and the dispatch handler returns an envelope rather
than letting an unhandled fault escape for such a request. -/
theorem mcp_call_unknown_tool_error_envelope (reg : List Tool)
    (data : List (String × JsonVal)) (s : String)
    (htool : dict_get data "tool" = some (JsonVal.str s))
    (hfind : find_tool reg s = none) :
    mcp_call reg (RequestBody.parsed data) =
      HttpResponse.ok (Envelope.failure (JsonVal.str s) ("404: Tool \x27" ++ s ++ "\x27 not found")) ∧
    (dispatch_data reg data).status = "error" ∧
    mcp_call_guarded reg (RequestBody.parsed data) =
      Envelope.failure (JsonVal.str s) ("404: Tool \x27" ++ s ++ "\x27 not found") := by
  have h := dispatch_data_not_found reg data s htool hfind
  refine ⟨?_, ?_, ?_⟩
  · show HttpResponse.ok (dispatch_data reg data) = _
    rw [h]
  · rw [h]
    rfl
  · show dispatch_data reg data = _
    rw [h]

/-- C1 witness: the unregistered name `does_not_exist` against the demo
registry. -/
theorem mcp_call_unknown_tool_error_envelope_witness :
    mcp_call demo_registry (RequestBody.parsed [("tool", JsonVal.str "does_not_exist")]) =
      HttpResponse.ok (Envelope.failure (JsonVal.str "does_not_exist")
        ("404: Tool \x27" ++ "does_not_exist" ++ "\x27 not found")) ∧
    (dispatch_data demo_registry [("tool", JsonVal.str "does_not_exist")]).status = "error" ∧
    mcp_call_guarded demo_registry (RequestBody.parsed [("tool", JsonVal.str "does_not_exist")]) =
      Envelope.failure (JsonVal.str "does_not_exist")
        ("404: Tool \x27" ++ "does_not_exist" ++ "\x27 not found") :=
  mcp_call_unknown_tool_error_envelope demo_registry
    [("tool", JsonVal.str "does_not_exist")] "does_not_exist" rfl rfl

/-- C2: dispatching a registered tool whose handler returns normally on
the supplied arguments yields exactly
`{status: "success", tool: <name>, result: <handler value>}`, the
handler's value passed through unmodified. -/
theorem mcp_call_success_envelope (reg : List Tool) (data : List (String × JsonVal))
    (s : String) (t : Tool) (args : List (String × JsonVal)) (v : JsonVal)
    (htool : dict_get data "tool" = some (JsonVal.str s))
    (hfind : find_tool reg s = some t)
    (hparams : dict_get data "parameters" = some (JsonVal.obj args))
    (hrun : invoke_tool t args = Except.ok v) :
    mcp_call reg (RequestBody.parsed data) =
      HttpResponse.ok (Envelope.success (JsonVal.str s) v) ∧
    (Envelope.success (JsonVal.str s) v).status = "success" := by
  have h := dispatch_data_registered reg data s t args htool hfind hparams
  rw [hrun] at h
  exact ⟨by show HttpResponse.ok (dispatch_data reg data) = _; rw [h], rfl⟩

/-- C2 witness: the spec's end-to-end scenario — `echo` with
`{"x": "hello"}` returns `{"status": "success", "tool": "echo",
"result": "hello"}`. -/
theorem mcp_call_success_envelope_witness :
    mcp_call demo_registry (RequestBody.parsed
        [("tool", JsonVal.str "echo"), ("parameters", JsonVal.obj [("x", JsonVal.str "hello")])]) =
      HttpResponse.ok (Envelope.success (JsonVal.str "echo") (JsonVal.str "hello")) ∧
    (Envelope.success (JsonVal.str "echo") (JsonVal.str "hello")).status = "success" :=
  mcp_call_success_envelope demo_registry
    [("tool", JsonVal.str "echo"), ("parameters", JsonVal.obj [("x", JsonVal.str "hello")])]
    "echo" echo_tool [("x", JsonVal.str "hello")] (JsonVal.str "hello") rfl rfl rfl rfl

/-- C3 counterexample: registering `dup_v2` after `dup_v1` (same name
`dup`) is not rejected — the registry afterwards resolves `dup` to the
second descriptor (`description = "second version"`), so the second
registration silently overwrote the first. -/
theorem mcp_tool_duplicate_overwrites :
    (find_tool (register_all [dup_v1, dup_v2]) "dup").map Tool.description =
      some "second version" ∧
    (find_tool (register_all [dup_v1]) "dup").map Tool.description = some "first version" ∧
    ("second version" : String) ≠ "first version" := by
  refine ⟨rfl, rfl, by decide⟩

/-- C3 amended: registering a tool under a name already present replaces
the stored descriptor in place — the new descriptor wins, and the
registry does not grow (last-registered-wins; nothing is rejected). -/
theorem mcp_tool_duplicate_last_wins (reg : List Tool) (t : Tool)
    (hmem : t.name ∈ reg.map Tool.name) :
    find_tool (register_tool reg t) t.name = some t ∧
    (register_tool reg t).length = reg.length := by
  have hany : reg.any (fun u => u.name == t.name) = true := by
    rcases List.mem_map.mp hmem with ⟨u, hu, hname⟩
    exact List.any_eq_true.mpr ⟨u, hu, by simp [hname]⟩
  constructor
  · unfold register_tool
    rw [hany]
    simp only [if_true]
    induction reg with
    | nil => cases hmem
    | cons u rest ih =>
        by_cases hu : u.name == t.name
        · simp [find_tool, List.find?, hu]
        · have hmem2 : t.name ∈ rest.map Tool.name := by
            rcases List.mem_map.mp hmem with ⟨w, hw, hname⟩
            rcases List.mem_cons.mp hw with hw1 | hw2
            · exact absurd (by simp [show u.name = t.name from hw1 ▸ hname]) hu
            · exact List.mem_map.mpr ⟨w, hw2, hname⟩
          have := ih hmem2 (by
            rcases List.mem_map.mp hmem2 with ⟨w, hw, hname⟩
            exact List.any_eq_true.mpr ⟨w, hw, by simp [hname]⟩)
          simpa [find_tool, List.find?, hu] using this
  · unfold register_tool
    rw [hany]
    simp

/-- C3 amended witness: after registering `dup_v1` then `dup_v2`, the
name `dup` resolves to `dup_v2` and the registry still has one entry. -/
theorem mcp_tool_duplicate_last_wins_witness :
    find_tool (register_tool [dup_v1] dup_v2) dup_v2.name = some dup_v2 ∧
    (register_tool [dup_v1] dup_v2).length = ([dup_v1] : List Tool).length :=
  mcp_tool_duplicate_last_wins [dup_v1] dup_v2 (by simp [dup_v1, dup_v2])

/-- C4 counterexample: a registered handler that raises an exception
whose message is empty (`raise ValueError()` has `str(e) = ""`) makes
dispatch return `{status: "error", tool: "silent", error: ""}` — the
`error` field is the empty string, not a non-empty one. -/
theorem mcp_call_handler_error_may_be_empty :
    mcp_call demo_registry (RequestBody.parsed
        [("tool", JsonVal.str "silent"), ("parameters", JsonVal.obj [])]) =
      HttpResponse.ok (Envelope.failure (JsonVal.str "silent") "") ∧
    ("" : String).length = 0 := by
  exact ⟨rfl, rfl⟩

/-- C4 amended: when a registered tool's handler raises, dispatch
returns `{status: "error", tool: <name>, error: str(e)}` — the
exception's message, which is empty exactly when the exception's message
is — as a returned envelope (no fault escapes; the registry is read-only
during dispatch, so subsequent requests are served unaffected). -/
theorem mcp_call_handler_error_envelope (reg : List Tool) (data : List (String × JsonVal))
    (s : String) (t : Tool) (args : List (String × JsonVal)) (m : String)
    (htool : dict_get data "tool" = some (JsonVal.str s))
    (hfind : find_tool reg s = some t)
    (hparams : dict_get data "parameters" = some (JsonVal.obj args))
    (hrun : invoke_tool t args = Except.error m) :
    mcp_call reg (RequestBody.parsed data) =
      HttpResponse.ok (Envelope.failure (JsonVal.str s) m) ∧
    (Envelope.failure (JsonVal.str s) m).status = "error" := by
  have h := dispatch_data_registered reg data s t args htool hfind hparams
  rw [hrun] at h
  exact ⟨by show HttpResponse.ok (dispatch_data reg data) = _; rw [h], rfl⟩

/-- C4 amended witness: the always-failing `boom` handler yields
`{status: "error", tool: "boom", error: "boom failed"}`. -/
theorem mcp_call_handler_error_envelope_witness :
    mcp_call demo_registry (RequestBody.parsed
        [("tool", JsonVal.str "boom"), ("parameters", JsonVal.obj [])]) =
      HttpResponse.ok (Envelope.failure (JsonVal.str "boom") "boom failed") ∧
    (Envelope.failure (JsonVal.str "boom") "boom failed").status = "error" :=
  mcp_call_handler_error_envelope demo_registry
    [("tool", JsonVal.str "boom"), ("parameters", JsonVal.obj [])]
    "boom" boom_tool [] "boom failed" rfl rfl rfl rfl

/-- C5 (code bug): on a request body that fails to parse as JSON, the
`except` handler of `mcp-server/main.py` references `tool_name` — which
was never assigned — so an `UnboundLocalError` escapes the endpoint and
the caller receives the framework's raw 500, not a JSON envelope.  The
guarded github/digitalocean variants return the envelope
`{status: "error", tool: "unknown", error: str(e)}` for the same
request, which is what the repository's own fix scripts
(`scripts/quick_fix_mcp.py`, `mcp-server/json_fix_patch.py`) retrofit
onto the base server. -/
theorem mcp_call_malformed_body_500 (reg : List Tool) (m : String) :
    mcp_call reg (RequestBody.malformed m) = HttpResponse.serverError unbound_local_error ∧
    mcp_call_guarded reg (RequestBody.malformed m) =
      Envelope.failure (JsonVal.str "unknown") m := by
  exact ⟨rfl, rfl⟩

/-- C6 counterexample: a body with no tool name sent to the base
dispatch (`mcp-server/main.py`) does **not** produce a distinct
"missing tool name" classification — `data.get("tool")` is `None`, and
the request falls into the unknown-tool branch with the very message the
unknown-tool outcome would produce for a tool literally named `None`. -/
theorem mcp_call_missing_name_not_classified :
    mcp_call demo_registry (RequestBody.parsed [("parameters", JsonVal.obj [])]) =
      HttpResponse.ok (Envelope.failure JsonVal.null "404: Tool \x27None\x27 not found") ∧
    not_found_msg JsonVal.null = not_found_msg (JsonVal.str "None") := by
  exact ⟨rfl, rfl⟩

/-- C6 amended: only the patched dispatch installed by
`scripts/quick_fix_mcp.py` classifies a missing tool name distinctly:
when the body carries none of `tool`/`function`/`name`, `new_mcp_call`
returns `{status: "error", tool: null, error: "400: No tool name
provided"}` — a message distinct from the unknown-tool classification
(the base `mcp-server/main.py` dispatch instead reports unknown tool
`None`, as the counterexample shows). -/
theorem new_mcp_call_missing_name_classified (reg : List Tool)
    (data : List (String × JsonVal))
    (h1 : dict_get data "tool" = none)
    (h2 : dict_get data "function" = none)
    (h3 : dict_get data "name" = none) :
    new_mcp_call reg (RequestBody.parsed data) =
      Envelope.failure JsonVal.null "400: No tool name provided" ∧
    ("400: No tool name provided" : String) ≠ not_found_msg JsonVal.null := by
  constructor
  · simp [new_mcp_call, h1, h2, h3, py_or, py_truthy]
  · decide

/-- C6 amended witness: the empty JSON object body. -/
theorem new_mcp_call_missing_name_classified_witness :
    new_mcp_call demo_registry (RequestBody.parsed []) =
      Envelope.failure JsonVal.null "400: No tool name provided" ∧
    ("400: No tool name provided" : String) ≠ not_found_msg JsonVal.null :=
  new_mcp_call_missing_name_classified demo_registry [] rfl rfl rfl

/-- C7 counterexample: the base dispatch endpoint
(`mcp-server/main.py` 354-356) reads only the `tool` key.  A body
carrying the name of the registered tool `echo` under the synonym key
`function` is **not** resolved against `echo`: the endpoint reports
unknown tool `None`. -/
theorem mcp_call_function_key_not_synonym :
    mcp_call demo_registry (RequestBody.parsed
        [("function", JsonVal.str "echo"), ("parameters", JsonVal.obj [("x", JsonVal.str "hi")])]) =
      HttpResponse.ok (Envelope.failure JsonVal.null "404: Tool \x27None\x27 not found") ∧
    (find_tool demo_registry "echo").isSome = true := by
  exact ⟨rfl, rfl⟩

/-- C7 amended: the patched dispatch (`scripts/quick_fix_mcp.py`'s
`new_mcp_call`; `mcp-server/json_fix_patch.py` documents the same
change) accepts `tool`, `function` and `name` as synonyms on a JSON
body: a (truthy) tool name carried under any one of the three keys
resolves identically.  The base `mcp-server/main.py` endpoint accepts
only `tool`. -/
theorem new_mcp_call_name_key_synonyms (reg : List Tool) (s : String)
    (args : List (String × JsonVal))
    (h : py_truthy (JsonVal.str s) = true) :
    new_mcp_call reg (RequestBody.parsed
        [("tool", JsonVal.str s), ("parameters", JsonVal.obj args)]) =
      dispatch_tool reg (JsonVal.str s) (JsonVal.obj args) ∧
    new_mcp_call reg (RequestBody.parsed
        [("function", JsonVal.str s), ("parameters", JsonVal.obj args)]) =
      dispatch_tool reg (JsonVal.str s) (JsonVal.obj args) ∧
    new_mcp_call reg (RequestBody.parsed
        [("name", JsonVal.str s), ("parameters", JsonVal.obj args)]) =
      dispatch_tool reg (JsonVal.str s) (JsonVal.obj args) := by
  have hs : s.isEmpty = false := by simpa [py_truthy] using h
  refine ⟨?_, ?_, ?_⟩ <;>
    simp [new_mcp_call, dict_get, List.find?, py_or, py_truthy, hs]

/-- C7 amended witness: `echo` supplied under each of the three keys
resolves to the same successful dispatch. -/
theorem new_mcp_call_name_key_synonyms_witness :
    new_mcp_call demo_registry (RequestBody.parsed
        [("tool", JsonVal.str "echo"), ("parameters", JsonVal.obj [("x", JsonVal.num 1)])]) =
      dispatch_tool demo_registry (JsonVal.str "echo") (JsonVal.obj [("x", JsonVal.num 1)]) ∧
    new_mcp_call demo_registry (RequestBody.parsed
        [("function", JsonVal.str "echo"), ("parameters", JsonVal.obj [("x", JsonVal.num 1)])]) =
      dispatch_tool demo_registry (JsonVal.str "echo") (JsonVal.obj [("x", JsonVal.num 1)]) ∧
    new_mcp_call demo_registry (RequestBody.parsed
        [("name", JsonVal.str "echo"), ("parameters", JsonVal.obj [("x", JsonVal.num 1)])]) =
      dispatch_tool demo_registry (JsonVal.str "echo") (JsonVal.obj [("x", JsonVal.num 1)]) :=
  new_mcp_call_name_key_synonyms demo_registry "echo" [("x", JsonVal.num 1)] rfl

/-- Registering a tool whose name is fresh appends it. -/
theorem register_tool_fresh (reg : List Tool) (t : Tool)
    (h : t.name ∉ reg.map Tool.name) :
    register_tool reg t = reg ++ [t] := by
  have hany : reg.any (fun u => u.name == t.name) = false := by
    rw [List.any_eq_false]
    intro u hu
    simp only [beq_iff_eq]
    exact fun he => h (List.mem_map.mpr ⟨u, hu, he⟩)
  simp [register_tool, hany]

/-- Folding registrations over a registry: with pairwise-fresh names the
registry grows by exactly one entry per call. -/
theorem register_fold_length (ts : List Tool) : ∀ reg : List Tool,
    (reg.map Tool.name ++ ts.map Tool.name).Nodup →
    (ts.foldl register_tool reg).length = reg.length + ts.length := by
  induction ts with
  | nil => intro reg _; simp
  | cons t rest ih =>
      intro reg h
      have hnotin : t.name ∉ reg.map Tool.name := by
        intro hmem
        exact (List.disjoint_of_nodup_append h) hmem (by simp)
      have hfresh := register_tool_fresh reg t hnotin
      have h2 : ((register_tool reg t).map Tool.name ++ rest.map Tool.name).Nodup := by
        rw [hfresh]
        simpa [List.append_assoc] using h
      calc ((t :: rest).foldl register_tool reg).length
          = (rest.foldl register_tool (register_tool reg t)).length := by
            simp [List.foldl]
        _ = (register_tool reg t).length + rest.length := ih _ h2
        _ = reg.length + (t :: rest).length := by
            rw [hfresh]
            simp
            omega

/-- C8 counterexample: two successful register calls under the same name
leave one registry entry, so the `total` of `GET /mcp/tools` is 1, not
the number (2) of register calls made. -/
theorem list_tools_total_ne_register_count :
    (list_tools (register_all [dup_v1, dup_v2])).length = 1 ∧
    ([dup_v1, dup_v2] : List Tool).length = 2 ∧ (1 : Nat) ≠ 2 := by
  exact ⟨rfl, rfl, by decide⟩

/-- C8 amended: when the registered names are pairwise distinct — as in
every server's actual startup sequence — the length of the `tools` list
of `GET /mcp/tools` (and hence its `total` field) equals the number of
register calls made; in general it is the number of distinct names. -/
theorem list_tools_total_eq_register_count (ts : List Tool)
    (h : (ts.map Tool.name).Nodup) :
    (list_tools (register_all ts)).length = ts.length := by
  have hlen := register_fold_length ts [] (by simpa using h)
  simpa [list_tools, register_all] using hlen

/-- C8 amended witness: the three distinctly-named demo tools advertise
a total of 3. -/
theorem list_tools_total_eq_register_count_witness :
    (list_tools (register_all [echo_tool, boom_tool, silent_tool])).length =
      ([echo_tool, boom_tool, silent_tool] : List Tool).length :=
  list_tools_total_eq_register_count [echo_tool, boom_tool, silent_tool] (by decide)

/-- C9 counterexample: `call_openwebui_api` (`mcp-server/main.py` 41-63)
has no 204/empty-body handling: a 204 response with an empty body makes
`response.json()` raise, so the adapter fails instead of returning a
synthetic success marker. -/
theorem call_openwebui_api_204_fails :
    call_openwebui_api "DELETE" (UpstreamResponse.mk 204 "" none) =
      Except.error empty_body_error := by
  rfl

/-- C9 amended: the DigitalOcean adapter `do_api_call` honours the
claim — on a 2xx upstream response it returns the parsed JSON body, and
on a 204 it returns the synthetic marker `{"status": "success",
"message": "Operation completed"}` instead of failing.
(`call_openwebui_api` only satisfies the first half: it fails on
204/empty bodies, per the counterexample.) -/
theorem do_api_call_2xx_contract (m : String) (r : UpstreamResponse) (v : JsonVal)
    (hm : (["GET", "POST", "PUT", "DELETE", "PATCH"].contains (py_upper m)) = true)
    (hlo : 200 ≤ r.status_code) (hhi : r.status_code < 300) :
    (r.status_code = 204 → do_api_call m r = Except.ok do_204_marker) ∧
    (r.status_code ≠ 204 → r.json_body = some v → do_api_call m r = Except.ok v) := by
  have h400 : ¬(r.status_code ≥ 400) := by omega
  constructor
  · intro h204
    unfold do_api_call
    rw [hm, h204]
    simp
  · intro hne hjson
    have h204 : (r.status_code == 204) = false := by
      simpa using hne
    unfold do_api_call
    rw [hm, hjson]
    simp [h400, h204]

/-- C9 amended witness: a 200 with a JSON array body and a 204 with an
empty body. -/
theorem do_api_call_2xx_contract_witness :
    do_api_call "GET" (UpstreamResponse.mk 200 "[]" (some (JsonVal.arr []))) =
      Except.ok (JsonVal.arr []) ∧
    do_api_call "DELETE" (UpstreamResponse.mk 204 "" none) = Except.ok do_204_marker :=
  ⟨(do_api_call_2xx_contract "GET" (UpstreamResponse.mk 200 "[]" (some (JsonVal.arr [])))
      (JsonVal.arr []) (by rfl) (by decide) (by decide)).2 (by decide) rfl,
   (do_api_call_2xx_contract "DELETE" (UpstreamResponse.mk 204 "" none)
      JsonVal.null (by rfl) (by decide) (by decide)).1 rfl⟩

/-- C10: dispatching a registered tool (whose handler declares no
catch-all keyword parameter) with an arguments object containing a key
outside the declared parameters yields an error envelope via the failed
keyword binding (`TypeError: ...got an unexpected keyword argument...`),
and the handler body is never entered: the outcome is independent of the
handler's `run` field. -/
theorem mcp_call_unexpected_kwarg_rejected (reg : List Tool)
    (data : List (String × JsonVal)) (s : String) (t : Tool)
    (args : List (String × JsonVal)) (k : String)
    (htool : dict_get data "tool" = some (JsonVal.str s))
    (hfind : find_tool reg s = some t)
    (hparams : dict_get data "parameters" = some (JsonVal.obj args))
    (hkw : t.hasKwargs = false)
    (hin : k ∈ args.map Prod.fst)
    (hnotdecl : t.params.contains k = false) :
    ∃ bad : String,
      bad ∈ args.map Prod.fst ∧ t.params.contains bad = false ∧
      mcp_call reg (RequestBody.parsed data) =
        HttpResponse.ok (Envelope.failure (JsonVal.str s)
          (t.name ++ "() got an unexpected keyword argument \x27" ++ bad ++ "\x27")) ∧
      ∀ f, invoke_tool (Tool.mk t.name t.description t.params t.required t.hasKwargs f) args =
        invoke_tool t args := by
  have hnotin : k ∉ t.params := by
    simpa using hnotdecl
  have hex : ∃ a ∈ args, (!(t.hasKwargs || t.params.contains a.1)) = true := by
    rcases List.mem_map.mp hin with ⟨a, ha, hk⟩
    exact ⟨a, ha, by simp [hkw, hk, hnotin]⟩
  have hsome : (args.find? (fun a => !(t.hasKwargs || t.params.contains a.1))).isSome := by
    rw [List.find?_isSome]
    exact hex
  rcases Option.isSome_iff_exists.mp hsome with ⟨a0, hfound⟩
  have hpa0 := List.find?_some hfound
  have hmem0 : a0 ∈ args := List.mem_of_find?_eq_some hfound
  have hcon0 : t.params.contains a0.1 = false := by
    simp only [hkw, Bool.false_or, Bool.not_eq_true'] at hpa0
    exact hpa0
  have hinv : invoke_tool t args =
      Except.error (t.name ++ "() got an unexpected keyword argument \x27" ++ a0.1 ++ "\x27") := by
    unfold invoke_tool
    rw [hfound]
  refine ⟨a0.1, List.mem_map.mpr ⟨a0, hmem0, rfl⟩, hcon0, ?_, ?_⟩
  · have h := dispatch_data_registered reg data s t args htool hfind hparams
    rw [hinv] at h
    show HttpResponse.ok (dispatch_data reg data) = _
    rw [h]
  · intro f
    have hfound2 : args.find? (fun a =>
        !((Tool.mk t.name t.description t.params t.required t.hasKwargs f).hasKwargs ||
          (Tool.mk t.name t.description t.params t.required t.hasKwargs f).params.contains a.1)) =
        some a0 := hfound
    unfold invoke_tool
    rw [hfound2]

/-- C10 witness: `echo` (declared parameter `x`, no `**kwargs`) called
with the extra argument `y` is rejected before the handler runs. -/
theorem mcp_call_unexpected_kwarg_rejected_witness :
    ∃ bad : String,
      bad ∈ ([("x", JsonVal.str "hello"), ("y", JsonVal.num 1)].map Prod.fst) ∧
      echo_tool.params.contains bad = false ∧
      mcp_call demo_registry (RequestBody.parsed
          [("tool", JsonVal.str "echo"),
           ("parameters", JsonVal.obj [("x", JsonVal.str "hello"), ("y", JsonVal.num 1)])]) =
        HttpResponse.ok (Envelope.failure (JsonVal.str "echo")
          (echo_tool.name ++ "() got an unexpected keyword argument \x27" ++ bad ++ "\x27")) ∧
      ∀ f, invoke_tool
          (Tool.mk echo_tool.name echo_tool.description echo_tool.params echo_tool.required
            echo_tool.hasKwargs f)
          [("x", JsonVal.str "hello"), ("y", JsonVal.num 1)] =
        invoke_tool echo_tool [("x", JsonVal.str "hello"), ("y", JsonVal.num 1)] :=
  mcp_call_unexpected_kwarg_rejected demo_registry
    [("tool", JsonVal.str "echo"),
     ("parameters", JsonVal.obj [("x", JsonVal.str "hello"), ("y", JsonVal.num 1)])]
    "echo" echo_tool [("x", JsonVal.str "hello"), ("y", JsonVal.num 1)] "y"
    rfl rfl rfl rfl (by simp) rfl
